import Mathlib

/-!
Verification of the SmartScale web app's scale ingestion pipeline
(`src/bluetooth.js`): GATT service negotiation with fallback, binary frame
decoding, BMI metric derivation and the subscription teardown lifecycle.

JavaScript numbers are IEEE-754 binary64 doubles. Every finite double is a
rational, so doubles are modelled as exact rationals and each arithmetic
operation of the source is followed by `roundDouble`, rounding the exact
result to the nearest representable double (round-nearest, ties-to-even,
53-bit significand), which is the binary64 semantics throughout the normal
range. `Math.round` is modelled by its ECMAScript specification
`⌊x + 1/2⌋` (round half toward positive infinity), applied to the exact
value of its double argument. Byte frames (`DataView`) are modelled as
lists of naturals holding byte values; the accessor functions mirror
`getUint8` / `getUint16(·, true)`.
-/

/-- JavaScript `Math.round`: rounds to the nearest integer, ties toward
positive infinity, i.e. `⌊x + 1/2⌋`. -/
def jsRound (x : ℚ) : ℤ := ⌊x + 1/2⌋

/-- Round half away from zero at the integer position (the rounding mode the
spec names for the decoder's hundredths-place rounding). -/
def roundHalfAwayFromZero (x : ℚ) : ℤ :=
  if 0 ≤ x then ⌊x + 1/2⌋ else ⌈x - 1/2⌉

/-- Model of `DataView.getUint8(i)`: the byte at offset `i`. The source only reads
in-bounds offsets (guarded by the length check), so the default is never hit. -/
def getUint8 (data : List ℕ) (i : ℕ) : ℕ := data.getD i 0

/-- Model of `DataView.getUint16(i, true)`: unsigned 16-bit little-endian read at
offset `i`. -/
def getUint16LE (data : List ℕ) (i : ℕ) : ℕ :=
  data.getD i 0 + 256 * data.getD (i + 1) 0

/-- Round a rational to the nearest integer, ties to even: the rounding
applied to the integer-scaled significand in binary64 arithmetic. -/
def roundNearestEven (x : ℚ) : ℤ :=
  if x - ⌊x⌋ < 1/2 then ⌊x⌋
  else if 1/2 < x - ⌊x⌋ then ⌊x⌋ + 1
  else if ⌊x⌋ % 2 = 0 then ⌊x⌋ else ⌊x⌋ + 1

/-- Round a positive rational to the nearest binary64 double: scale by a
power of two into the significand range [2^52, 2^53), round ties-to-even,
and scale back. -/
def roundDoublePos (q : ℚ) : ℚ :=
  (roundNearestEven (q * (2:ℚ) ^ (52 - Int.log 2 q)) : ℚ) * (2:ℚ) ^ (Int.log 2 q - 52)

/-- Round a rational to the nearest binary64 double (round-nearest,
ties-to-even). Exact on the binary64 normal finite range, which contains
every value this pipeline computes on byte frames and on the claims'
inputs; subnormal underflow and overflow to infinity lie outside the
modelled range. -/
def roundDouble (q : ℚ) : ℚ :=
  if q = 0 then 0
  else if 0 < q then roundDoublePos q
  else -roundDoublePos (-q)

/-- The double denoted by a JavaScript number literal: the source text
`0.005` denotes `dbl (1/200)`, the double nearest 1/200. -/
def dbl (q : ℚ) : ℚ := roundDouble q

/-- Binary64 multiplication: exact product, rounded to the nearest
double. -/
def fmul (x y : ℚ) : ℚ := roundDouble (x * y)

/-- Binary64 division: exact quotient, rounded to the nearest double. -/
def fdiv (x y : ℚ) : ℚ := roundDouble (x / y)

/-- The record returned by `parseScaleData` in `bluetooth.js`:
`{ weight, isStable, unit }`. -/
structure Measurement where
  weight : ℚ
  isStable : Bool
  unit : String
  deriving DecidableEq, Repr

/-- Source function `parseScaleData` from `src/bluetooth.js`: rejects frames shorter than
3 bytes; byte 0 is a flag byte whose bit 0 selects the unit; bytes 1–2 are a
little-endian `uint16` raw weight; multiplier `0.005` (the double `dbl (1/200)`)
for kg, `0.01` (the double `dbl (1/100)`) for lbs; all products and the final
division by 100 are binary64 operations, and the weight passes through
`Math.round(weight * 100) / 100`. -/
def parseScaleData (data : List ℕ) : Option Measurement :=
  if data.length < 3 then none
  else
    let flags := getUint8 data 0
    let isLbs := flags % 2 ≠ 0
    let rawWeight := getUint16LE data 1
    let weight : ℚ :=
      if isLbs then fmul (rawWeight : ℚ) (dbl (1/100))
      else fmul (rawWeight : ℚ) (dbl (1/200))
    some { weight := fdiv (jsRound (fmul weight 100) : ℚ) 100
           isStable := true
           unit := if isLbs then "lbs" else "kg" }

/-- Source function `calculateBMI` from `src/bluetooth.js`. An absent argument is `none`;
for a number argument JavaScript's `!x` test holds exactly when the number
is `0`, so the guard `if (!weight || !height) return 0` is a zero test, not
a non-positivity test. Otherwise `Math.round(bmi * 10) / 10` of
`weight / (height/100)^2`, every division and multiplication being a
binary64 operation. -/
def calculateBMI (weight height : Option ℚ) : ℚ :=
  match weight, height with
  | some w, some h =>
      if w = 0 ∨ h = 0 then 0
      else
        let heightInMeters := fdiv h 100
        let bmi := fdiv w (fmul heightInMeters heightInMeters)
        fdiv (jsRound (fmul bmi 10) : ℚ) 10
  | _, _ => 0

/-- The record returned by `getBMICategory`: `{ label, color, status }`. -/
structure BMICategory where
  label : String
  color : String
  status : String
  deriving DecidableEq, Repr

def underweightCategory : BMICategory :=
  { label := "Podváha", color := "#60a5fa", status := "blue" }

def normalCategory : BMICategory :=
  { label := "Normálna", color := "#4ade80", status := "green" }

def overweightCategory : BMICategory :=
  { label := "Nadváha", color := "#fb923c", status := "orange" }

def obeseCategory : BMICategory :=
  { label := "Obezita", color := "#f87171", status := "red" }

/-- Source function `getBMICategory` from `src/bluetooth.js`: a cascade of strict
less-than tests at 18.5, 25 and 30. -/
def getBMICategory (bmi : ℚ) : BMICategory :=
  if bmi < 37/2 then underweightCategory
  else if bmi < 25 then normalCategory
  else if bmi < 30 then overweightCategory
  else obeseCategory

/-! Connection negotiation (`subscribeToWeight`, lines 31–46).

The GATT platform is modelled by which of the two known services a device
exposes: `server.getPrimaryService(uuid)` succeeds exactly when the device
has that service, and throws a platform error otherwise. -/

def WEIGHT_SCALE_SERVICE_UUID : ℕ := 0x181d
def BODY_COMPOSITION_SERVICE_UUID : ℕ := 0x181b
def WEIGHT_MEASUREMENT_CHAR_UUID : ℕ := 0x2a9d
def BODY_COMP_MEASUREMENT_CHAR_UUID : ℕ := 0x2a9c

/-- A discovered device, abstracted to which GATT services it exposes. -/
structure GattDevice where
  hasWeightScaleService : Bool
  hasBodyCompositionService : Bool
  deriving DecidableEq, Repr

/-- The service/characteristic pair a successful negotiation binds. -/
structure Session where
  serviceUUID : ℕ
  charUUID : ℕ
  deriving DecidableEq, Repr

/-- Errors a negotiation can surface. `resolveFailed` is the raw platform
error thrown by `getPrimaryService`; `serviceNotFound` is the
`ServiceNotFoundError` the spec names (never constructed by the code). -/
inductive NegotiationError where
  | resolveFailed
  | serviceNotFound
  deriving DecidableEq, Repr

/-- Outcome of `subscribeToWeight`'s negotiation phase: the value or error
it surfaces, whether the transport connection opened by
`device.gatt.connect()` is still open when control returns to the caller,
and the ordered list of service UUIDs it attempted to resolve. -/
structure NegotiationResult where
  outcome : Except NegotiationError Session
  connectionOpen : Bool
  attempts : List ℕ
  deriving Repr

/-- The negotiation phase of `subscribeToWeight` (lines 32–46):
`connect` opens the transport; the `try` block resolves the Weight Scale
service with the Weight Measurement characteristic; the `catch` block
resolves the Body Composition service with the Body Composition Measurement
characteristic. If that second `getPrimaryService` also throws, the
exception propagates out of the `async` function with no further handler:
no `disconnect()` is on that path, so the connection stays open. -/
def subscribeToWeight (device : GattDevice) : NegotiationResult :=
  if device.hasWeightScaleService then
    { outcome := .ok ⟨WEIGHT_SCALE_SERVICE_UUID, WEIGHT_MEASUREMENT_CHAR_UUID⟩
      connectionOpen := true
      attempts := [WEIGHT_SCALE_SERVICE_UUID] }
  else if device.hasBodyCompositionService then
    { outcome := .ok ⟨BODY_COMPOSITION_SERVICE_UUID, BODY_COMP_MEASUREMENT_CHAR_UUID⟩
      connectionOpen := true
      attempts := [WEIGHT_SCALE_SERVICE_UUID, BODY_COMPOSITION_SERVICE_UUID] }
  else
    { outcome := .error .resolveFailed
      connectionOpen := true
      attempts := [WEIGHT_SCALE_SERVICE_UUID, BODY_COMPOSITION_SERVICE_UUID] }

/-! Teardown closure (`subscribeToWeight`, lines 57–60).

The returned closure runs `characteristic.stopNotifications();
server.disconnect();`. Neither call is awaited and neither statement can
throw synchronously, so the closure is modelled as a total state
transformer: per the Web Bluetooth platform, `stopNotifications` on a
disconnected server yields a rejected promise (which the closure discards
unawaited), and `disconnect` on a disconnected server is a no-op. -/

/-- Transport-visible state of one connection. -/
structure TransportState where
  connected : Bool
  notifying : Bool
  deriving DecidableEq, Repr

/-- Model of `characteristic.stopNotifications()`: stops the stream when connected;
when disconnected the returned promise rejects (second component `true`)
and the state is unchanged. -/
def stopNotifications (s : TransportState) : TransportState × Bool :=
  if s.connected then ({ s with notifying := false }, false) else (s, true)

/-- Model of `server.disconnect()`: closes the connection (ending any notification
stream with it); a no-op when already disconnected. -/
def disconnect (s : TransportState) : TransportState :=
  if s.connected then { connected := false, notifying := false } else s

/-- The teardown closure: `stopNotifications` then `disconnect`, ignoring
the unawaited promise. -/
def teardown (s : TransportState) : TransportState :=
  disconnect (stopNotifications s).1

/-! Helper lemmas shared by the claim theorems. -/

theorem jsRound_nonneg {x : ℚ} (hx : 0 ≤ x) : 0 ≤ jsRound x := by
  unfold jsRound
  exact Int.floor_nonneg.mpr (by linarith)

theorem roundHalfAwayFromZero_eq_jsRound {x : ℚ} (hx : 0 ≤ x) :
    roundHalfAwayFromZero x = jsRound x := by
  unfold roundHalfAwayFromZero jsRound
  rw [if_pos hx]

/-- Uniqueness of the binade: if `2^e ≤ q < 2^(e+1)` then `e` is the
binary logarithm floor that `roundDouble` scales by. -/
theorem log2_eq_of_bounds {q : ℚ} {e : ℤ} (h1 : (2:ℚ)^e ≤ q) (h2 : q < (2:ℚ)^(e+1)) :
    Int.log 2 q = e := by
  have hq : 0 < q := lt_of_lt_of_le (zpow_pos (by norm_num) e) h1
  have h1a : ((2:ℕ):ℚ)^e ≤ q := by exact_mod_cast h1
  have h2a : q < ((2:ℕ):ℚ)^(e+1) := by exact_mod_cast h2
  have ha := (Int.zpow_le_iff_le_log (by norm_num) hq).mp h1a
  have hb := (Int.lt_zpow_iff_log_lt (by norm_num) hq).mp h2a
  omega

/-- Characterisation of `roundDouble` on a positive value with an explicit
binade exponent. -/
theorem roundDouble_pos_eq (q : ℚ) (e : ℤ) (h1 : (2:ℚ)^e ≤ q) (h2 : q < (2:ℚ)^(e+1)) :
    roundDouble q = (roundNearestEven (q * (2:ℚ)^(52 - e)) : ℚ) * (2:ℚ)^(e - 52) := by
  have hq : 0 < q := lt_of_lt_of_le (zpow_pos (by norm_num) e) h1
  unfold roundDouble roundDoublePos
  rw [if_neg (ne_of_gt hq), if_pos hq, log2_eq_of_bounds h1 h2]

/-- Evaluation of ties-to-even rounding when the value is below the
midpoint. -/
theorem roundNearestEven_eq_floor (x : ℚ) (f : ℤ) (h1 : (f:ℚ) ≤ x)
    (h2 : x < (f:ℚ) + 1/2) : roundNearestEven x = f := by
  have hf : ⌊x⌋ = f := Int.floor_eq_iff.mpr ⟨h1, by linarith⟩
  unfold roundNearestEven
  rw [hf, if_pos (by linarith)]

/-- Evaluation of ties-to-even rounding when the value is above the
midpoint. -/
theorem roundNearestEven_eq_ceil (x : ℚ) (f : ℤ) (h1 : (f:ℚ) + 1/2 < x)
    (h2 : x < (f:ℚ) + 1) : roundNearestEven x = f + 1 := by
  have hf : ⌊x⌋ = f := Int.floor_eq_iff.mpr ⟨by linarith, by linarith⟩
  unfold roundNearestEven
  rw [hf, if_neg (by linarith), if_pos (by linarith)]

theorem roundNearestEven_intCast (m : ℤ) : roundNearestEven (m:ℚ) = m := by
  unfold roundNearestEven
  rw [Int.floor_intCast, if_pos (by norm_num)]

theorem roundNearestEven_nonneg {x : ℚ} (hx : 0 ≤ x) : 0 ≤ roundNearestEven x := by
  have h0 : 0 ≤ ⌊x⌋ := Int.floor_nonneg.mpr hx
  unfold roundNearestEven
  split_ifs <;> omega

theorem roundDouble_zero : roundDouble 0 = 0 := by
  simp [roundDouble]

theorem roundDouble_nonneg {q : ℚ} (hq : 0 ≤ q) : 0 ≤ roundDouble q := by
  rcases eq_or_lt_of_le hq with h | h
  · rw [← h, roundDouble_zero]
  · unfold roundDouble roundDoublePos
    rw [if_neg (ne_of_gt h), if_pos h]
    have h1 : (0:ℤ) ≤ roundNearestEven (q * (2:ℚ)^(52 - Int.log 2 q)) :=
      roundNearestEven_nonneg
        (mul_nonneg (le_of_lt h) (le_of_lt (zpow_pos (by norm_num) _)))
    exact mul_nonneg (by exact_mod_cast h1) (le_of_lt (zpow_pos (by norm_num) _))

/-- Binary64 rounding is symmetric under negation (ties-to-even is a
sign-symmetric rounding mode). -/
theorem roundDouble_neg (q : ℚ) : roundDouble (-q) = -roundDouble q := by
  rcases lt_trichotomy q 0 with h | h | h
  · have hL : roundDouble (-q) = roundDoublePos (-q) := by
      unfold roundDouble
      rw [if_neg (by linarith), if_pos (by linarith)]
    have hR : roundDouble q = -roundDoublePos (-q) := by
      unfold roundDouble
      rw [if_neg (by linarith), if_neg (by linarith)]
    rw [hL, hR, neg_neg]
  · simp [h, roundDouble]
  · have hL : roundDouble (-q) = -roundDoublePos q := by
      unfold roundDouble
      rw [if_neg (by linarith), if_neg (by linarith), neg_neg]
    have hR : roundDouble q = roundDoublePos q := by
      unfold roundDouble
      rw [if_neg (ne_of_gt h), if_pos h]
    rw [hL, hR]

/-- A value whose scaled significand is an integer is a double and rounds
to itself. -/
theorem roundDouble_eq_self (q : ℚ) (e m : ℤ) (h1 : (2:ℚ)^e ≤ q)
    (h2 : q < (2:ℚ)^(e+1)) (hm : (m:ℚ) = q * (2:ℚ)^(52 - e)) :
    roundDouble q = q := by
  rw [roundDouble_pos_eq q e h1 h2, ← hm, roundNearestEven_intCast, hm, mul_assoc,
    ← zpow_add₀ (by norm_num : (2:ℚ) ≠ 0), show 52 - e + (e - 52) = 0 by ring]
  norm_num

theorem fmul_nonneg {x y : ℚ} (hx : 0 ≤ x) (hy : 0 ≤ y) : 0 ≤ fmul x y :=
  roundDouble_nonneg (mul_nonneg hx hy)

theorem fdiv_nonneg {x y : ℚ} (hx : 0 ≤ x) (hy : 0 ≤ y) : 0 ≤ fdiv x y :=
  roundDouble_nonneg (div_nonneg hx hy)

/-- Shape of the decoder's output on accepted frames: for a frame of at
least 3 bytes, `parseScaleData` returns the record built from the flag bit
and the little-endian raw weight, all arithmetic in binary64. -/
theorem parseScaleData_eq (data : List ℕ) (h : ¬ data.length < 3) :
    parseScaleData data = some
      { weight := fdiv (jsRound (fmul (if getUint8 data 0 % 2 ≠ 0 then
            fmul (getUint16LE data 1 : ℚ) (dbl (1/100))
          else fmul (getUint16LE data 1 : ℚ) (dbl (1/200))) 100) : ℚ) 100
        isStable := true
        unit := if getUint8 data 0 % 2 ≠ 0 then "lbs" else "kg" } := by
  unfold parseScaleData
  rw [if_neg h]

theorem dbl_nonneg {q : ℚ} (h : 0 ≤ q) : 0 ≤ dbl q := by
  unfold dbl
  exact roundDouble_nonneg h

/-- The double denoted by the source literal `0.005`. -/
theorem dbl_inv200_eq : dbl (1/200) = 5764607523034235 / 1152921504606846976 := by
  unfold dbl
  rw [roundDouble_pos_eq (1/200) (-8) (by norm_num) (by norm_num)]
  rw [roundNearestEven_eq_ceil _ 5764607523034234 (by norm_num) (by norm_num)]
  norm_num

/-- The double denoted by the source literal `0.01`. -/
theorem dbl_inv100_eq : dbl (1/100) = 5764607523034235 / 576460752303423488 := by
  unfold dbl
  rw [roundDouble_pos_eq (1/100) (-7) (by norm_num) (by norm_num)]
  rw [roundNearestEven_eq_ceil _ 5764607523034234 (by norm_num) (by norm_num)]
  norm_num

/-- 600 × 0.005 rounds back to exactly 3 in binary64. -/
theorem fmul_600_c005 : fmul 600 (dbl (1/200)) = 3 := by
  rw [dbl_inv200_eq]
  unfold fmul
  rw [show (600:ℚ) * (5764607523034235 / 1152921504606846976)
      = 3458764513820541000 / 1152921504606846976 by norm_num]
  rw [roundDouble_pos_eq _ 1 (by norm_num) (by norm_num)]
  rw [roundNearestEven_eq_floor _ 6755399441055744 (by norm_num) (by norm_num)]
  norm_num

/-- 600 × 0.01 rounds back to exactly 6 in binary64. -/
theorem fmul_600_c01 : fmul 600 (dbl (1/100)) = 6 := by
  rw [dbl_inv100_eq]
  unfold fmul
  rw [show (600:ℚ) * (5764607523034235 / 576460752303423488)
      = 3458764513820541000 / 576460752303423488 by norm_num]
  rw [roundDouble_pos_eq _ 2 (by norm_num) (by norm_num)]
  rw [roundNearestEven_eq_floor _ 6755399441055744 (by norm_num) (by norm_num)]
  norm_num

theorem fmul_3_100 : fmul 3 100 = 300 := by
  unfold fmul
  rw [show (3:ℚ) * 100 = 300 by norm_num]
  exact roundDouble_eq_self 300 8 5277655813324800 (by norm_num) (by norm_num) (by norm_num)

theorem fmul_6_100 : fmul 6 100 = 600 := by
  unfold fmul
  rw [show (6:ℚ) * 100 = 600 by norm_num]
  exact roundDouble_eq_self 600 9 5277655813324800 (by norm_num) (by norm_num) (by norm_num)

theorem fdiv_300_100 : fdiv 300 100 = 3 := by
  unfold fdiv
  rw [show (300:ℚ) / 100 = 3 by norm_num]
  exact roundDouble_eq_self 3 1 6755399441055744 (by norm_num) (by norm_num) (by norm_num)

theorem fdiv_600_100 : fdiv 600 100 = 6 := by
  unfold fdiv
  rw [show (600:ℚ) / 100 = 6 by norm_num]
  exact roundDouble_eq_self 6 2 6755399441055744 (by norm_num) (by norm_num) (by norm_num)

/-- Frame raw=600, kg flag: the pipeline value is exactly 3. -/
theorem parse_frame_600kg : parseScaleData [0x00, 0x58, 0x02] = some ⟨3, true, "kg"⟩ := by
  rw [parseScaleData_eq _ (by norm_num)]
  rw [if_neg (by decide), if_neg (by decide)]
  rw [show getUint16LE [0x00, 0x58, 0x02] 1 = 600 from by decide]
  rw [show ((600:ℕ):ℚ) = 600 from by norm_num]
  rw [fmul_600_c005, fmul_3_100]
  rw [show jsRound (300:ℚ) = 300 from by norm_num [jsRound]]
  rw [show ((300:ℤ):ℚ) = 300 from by norm_num]
  rw [fdiv_300_100]

/-- Frame raw=600, lbs flag: the pipeline value is exactly 6. -/
theorem parse_frame_600lbs : parseScaleData [0x01, 0x58, 0x02] = some ⟨6, true, "lbs"⟩ := by
  rw [parseScaleData_eq _ (by norm_num)]
  rw [if_pos (by decide), if_pos (by decide)]
  rw [show getUint16LE [0x01, 0x58, 0x02] 1 = 600 from by decide]
  rw [show ((600:ℕ):ℚ) = 600 from by norm_num]
  rw [fmul_600_c01, fmul_6_100]
  rw [show jsRound (600:ℚ) = 600 from by norm_num [jsRound]]
  rw [show ((600:ℤ):ℚ) = 600 from by norm_num]
  rw [fdiv_600_100]

/-- 29 × 0.005 in binary64: the product rounds DOWN to a double slightly
below 0.145. -/
theorem fmul_29_c005 : fmul 29 (dbl (1/200)) = 5224175567749775 / 36028797018963968 := by
  rw [dbl_inv200_eq]
  unfold fmul
  rw [show (29:ℚ) * (5764607523034235 / 1152921504606846976)
      = 167173618167992815 / 1152921504606846976 by norm_num]
  rw [roundDouble_pos_eq _ (-3) (by norm_num) (by norm_num)]
  rw [roundNearestEven_eq_floor _ 5224175567749775 (by norm_num) (by norm_num)]
  norm_num

/-- Multiplying that double by 100 gives the double 14.499999999999998. -/
theorem fmul_w29_100 :
    fmul (5224175567749775 / 36028797018963968) 100 = 8162774324609023 / 562949953421312 := by
  unfold fmul
  rw [show (5224175567749775 / 36028797018963968 : ℚ) * 100
      = 522417556774977500 / 36028797018963968 by norm_num]
  rw [roundDouble_pos_eq _ 3 (by norm_num) (by norm_num)]
  rw [roundNearestEven_eq_floor _ 8162774324609023 (by norm_num) (by norm_num)]
  norm_num

/-- 14 / 100 in binary64: the double nearest 0.14. -/
theorem fdiv_14_100 : fdiv 14 100 = 5044031582654956 / 36028797018963968 := by
  unfold fdiv
  rw [show (14:ℚ) / 100 = 7/50 by norm_num]
  rw [roundDouble_pos_eq _ (-3) (by norm_num) (by norm_num)]
  rw [roundNearestEven_eq_ceil _ 5044031582654955 (by norm_num) (by norm_num)]
  norm_num

/-- Frame raw=29, kg flag: binary64 arithmetic yields the double 0.14
(5044031582654956 × 2^-55), not 0.145 rounded up. -/
theorem parse_frame_29 : parseScaleData [0x00, 0x1D, 0x00]
    = some ⟨5044031582654956 / 36028797018963968, true, "kg"⟩ := by
  rw [parseScaleData_eq _ (by norm_num)]
  rw [if_neg (by decide), if_neg (by decide)]
  rw [show getUint16LE [0x00, 0x1D, 0x00] 1 = 29 from by decide]
  rw [show ((29:ℕ):ℚ) = 29 from by norm_num]
  rw [fmul_29_c005, fmul_w29_100]
  rw [show jsRound (8162774324609023 / 562949953421312 : ℚ) = 14 from by norm_num [jsRound]]
  rw [show ((14:ℤ):ℚ) = 14 from by norm_num]
  rw [fdiv_14_100]

/-- The all-zero frame decodes to weight exactly 0. -/
theorem parse_frame_zero : parseScaleData [0, 0, 0] = some ⟨0, true, "kg"⟩ := by
  rw [parseScaleData_eq _ (by norm_num)]
  rw [if_neg (by decide), if_neg (by decide)]
  rw [show getUint16LE [0, 0, 0] 1 = 0 from by decide]
  rw [show ((0:ℕ):ℚ) = 0 from by norm_num]
  rw [show fmul (0:ℚ) (dbl (1/200)) = 0 from by
    unfold fmul; rw [zero_mul, roundDouble_zero]]
  rw [show fmul (0:ℚ) 100 = 0 from by unfold fmul; rw [zero_mul, roundDouble_zero]]
  rw [show jsRound (0:ℚ) = 0 from by norm_num [jsRound]]
  rw [show ((0:ℤ):ℚ) = 0 from by norm_num]
  rw [show fdiv (0:ℚ) 100 = 0 from by unfold fdiv; rw [zero_div, roundDouble_zero]]

theorem fdiv_175_100 : fdiv 175 100 = 7/4 := by
  unfold fdiv
  rw [show (175:ℚ) / 100 = 7/4 by norm_num]
  exact roundDouble_eq_self (7/4) 0 7881299347898368 (by norm_num) (by norm_num) (by norm_num)

theorem fmul_74_74 : fmul (7/4) (7/4) = 49/16 := by
  unfold fmul
  rw [show (7/4:ℚ) * (7/4) = 49/16 by norm_num]
  exact roundDouble_eq_self (49/16) 1 6896136929411072 (by norm_num) (by norm_num) (by norm_num)

/-- 70 / 3.0625 in binary64: the double nearest 160/7. -/
theorem fdiv_70_4916 : fdiv 70 (49/16) = 6433713753386423 / 281474976710656 := by
  unfold fdiv
  rw [show (70:ℚ) / (49/16) = 160/7 by norm_num]
  rw [roundDouble_pos_eq _ 4 (by norm_num) (by norm_num)]
  rw [roundNearestEven_eq_ceil _ 6433713753386422 (by norm_num) (by norm_num)]
  norm_num

/-- That double times 10 in binary64. -/
theorem fmul_bmi_10 :
    fmul (6433713753386423 / 281474976710656) 10 = 8042142191733029 / 35184372088832 := by
  unfold fmul
  rw [show (6433713753386423 / 281474976710656 : ℚ) * 10
      = 64337137533864230 / 281474976710656 by norm_num]
  rw [roundDouble_pos_eq _ 7 (by norm_num) (by norm_num)]
  rw [roundNearestEven_eq_ceil _ 8042142191733028 (by norm_num) (by norm_num)]
  norm_num

/-- 229 / 10 in binary64: the double denoted by the literal `22.9`. -/
theorem fdiv_229_10 : fdiv 229 10 = 6445776966674022 / 281474976710656 := by
  unfold fdiv
  rw [roundDouble_pos_eq _ 4 (by norm_num) (by norm_num)]
  rw [roundNearestEven_eq_floor _ 6445776966674022 (by norm_num) (by norm_num)]
  norm_num

/-- Value of the double denoted by `22.9`. -/
theorem dbl_229_10_eq : dbl (229/10) = 6445776966674022 / 281474976710656 := by
  unfold dbl
  rw [roundDouble_pos_eq _ 4 (by norm_num) (by norm_num)]
  rw [roundNearestEven_eq_floor _ 6445776966674022 (by norm_num) (by norm_num)]
  norm_num

/-- The BMI pipeline at (70, 175) in binary64 yields the double `22.9`. -/
theorem calculateBMI_70_175 : calculateBMI (some 70) (some 175) = dbl (229/10) := by
  simp only [calculateBMI]
  rw [if_neg (by norm_num)]
  rw [fdiv_175_100, fmul_74_74, fdiv_70_4916, fmul_bmi_10]
  rw [show jsRound (8042142191733029 / 35184372088832 : ℚ) = 229 from by norm_num [jsRound]]
  rw [show ((229:ℤ):ℚ) = 229 from by norm_num]
  rw [fdiv_229_10, dbl_229_10_eq]

/-- The BMI pipeline at (-70, 175) in binary64 yields the double `-22.9`:
a negative weight is not sentineled to 0. -/
theorem calculateBMI_neg70_175 :
    calculateBMI (some (-70)) (some 175) = -dbl (229/10) := by
  simp only [calculateBMI]
  rw [if_neg (by norm_num)]
  rw [fdiv_175_100, fmul_74_74]
  rw [show fdiv (-70) (49/16 : ℚ) = -fdiv 70 (49/16) from by
    unfold fdiv; rw [show ((-70):ℚ) / (49/16) = -(70 / (49/16)) by ring, roundDouble_neg]]
  rw [fdiv_70_4916]
  rw [show fmul (-(6433713753386423 / 281474976710656 : ℚ)) 10
      = -fmul (6433713753386423 / 281474976710656 : ℚ) 10 from by
    unfold fmul; rw [neg_mul, roundDouble_neg]]
  rw [fmul_bmi_10]
  rw [show jsRound (-(8042142191733029 / 35184372088832) : ℚ) = -229 from by
    norm_num [jsRound]]
  rw [show ((-229:ℤ):ℚ) = -229 from by norm_num]
  rw [show fdiv (-229 : ℚ) 10 = -fdiv 229 10 from by
    unfold fdiv; rw [show ((-229):ℚ) / 10 = -(229 / 10) by ring, roundDouble_neg]]
  rw [fdiv_229_10, dbl_229_10_eq]

/-- C8: every frame shorter than 3 bytes is rejected: `parseScaleData`
returns `none`. The embedding is a total function into `Option`, mirroring
that the source's guard returns before any `DataView` read, so no read can
throw on a short frame. -/
theorem parseScaleData_short_frame (data : List ℕ) (h : data.length < 3) :
    parseScaleData data = none := by
  unfold parseScaleData
  rw [if_pos h]

/-- Witness for C8 at the empty frame. -/
theorem parseScaleData_short_frame_witness :
    ([] : List ℕ).length < 3 ∧ parseScaleData [] = none :=
  ⟨by decide, parseScaleData_short_frame [] (by decide)⟩

/-- C7: the BMI category boundaries are lower-inclusive on the upper
cutoff: below 18.5 underweight, 18.5 to below 25 normal, 25 to below 30
overweight, 30 and above obese; in particular 18.5 is normal, 25 is
overweight and 30 is obese. -/
theorem getBMICategory_boundaries :
    (∀ b : ℚ, b < 37/2 → getBMICategory b = underweightCategory) ∧
    (∀ b : ℚ, 37/2 ≤ b → b < 25 → getBMICategory b = normalCategory) ∧
    (∀ b : ℚ, 25 ≤ b → b < 30 → getBMICategory b = overweightCategory) ∧
    (∀ b : ℚ, 30 ≤ b → getBMICategory b = obeseCategory) ∧
    getBMICategory (37/2) = normalCategory ∧
    getBMICategory 25 = overweightCategory ∧
    getBMICategory 30 = obeseCategory := by
  refine ⟨?_, ?_, ?_, ?_, ?_, ?_, ?_⟩
  · intro b hb; unfold getBMICategory; rw [if_pos hb]
  · intro b hb1 hb2; unfold getBMICategory
    rw [if_neg (by linarith), if_pos hb2]
  · intro b hb1 hb2; unfold getBMICategory
    rw [if_neg (by linarith), if_neg (by linarith), if_pos hb2]
  · intro b hb; unfold getBMICategory
    rw [if_neg (by linarith), if_neg (by linarith), if_neg (by linarith)]
  · norm_num [getBMICategory]
  · norm_num [getBMICategory]
  · norm_num [getBMICategory]

/-- Witness for C7: 10 is classified underweight. -/
theorem getBMICategory_boundaries_witness :
    getBMICategory 10 = underweightCategory :=
  getBMICategory_boundaries.1 10 (by norm_num)

/-- C10: the category function is total over the rationals and always
yields one of the four fixed categories; the sentinel 0 (and every
non-positive value) is classified underweight, indistinguishable from a
genuine underweight reading such as 17. -/
theorem getBMICategory_total :
    (∀ b : ℚ, getBMICategory b = underweightCategory ∨
        getBMICategory b = normalCategory ∨
        getBMICategory b = overweightCategory ∨
        getBMICategory b = obeseCategory) ∧
    getBMICategory 0 = underweightCategory ∧
    (∀ b : ℚ, b ≤ 0 → getBMICategory b = underweightCategory) ∧
    getBMICategory 0 = getBMICategory 17 := by
  refine ⟨?_, ?_, ?_, ?_⟩
  · intro b; unfold getBMICategory; split_ifs <;> simp
  · norm_num [getBMICategory]
  · intro b hb; unfold getBMICategory; rw [if_pos (by linarith)]
  · norm_num [getBMICategory]

/-- Witness for C10 at a negative input. -/
theorem getBMICategory_total_witness :
    getBMICategory (-5) = underweightCategory :=
  getBMICategory_total.2.2.1 (-5) (by norm_num)

/-- C9: the teardown closure is idempotent: running it twice from any
transport state equals running it once, and from the stopped, closed state
it is the identity; it is a total function, reflecting that neither of its
two unawaited platform calls can raise synchronously. -/
theorem teardown_idempotent :
    (∀ s : TransportState, teardown (teardown s) = teardown s) ∧
    teardown { connected := false, notifying := false } =
      { connected := false, notifying := false } := by
  constructor
  · intro s
    rcases s with ⟨c, n⟩
    cases c <;> cases n <;> rfl
  · rfl

/-- Witness for C9 from the fully active state. -/
theorem teardown_idempotent_witness :
    teardown (teardown ⟨true, true⟩) = teardown ⟨true, true⟩ :=
  teardown_idempotent.1 ⟨true, true⟩

/-- C2 counterexample: a strictly negative weight is truthy in JavaScript,
so `calculateBMI(-70, 175)` computes the double `-22.9` (a nonzero value)
rather than the sentinel `0` the claim requires for non-positive inputs. -/
theorem calculateBMI_negative_counterexample :
    calculateBMI (some (-70)) (some 175) = -dbl (229/10) ∧
    -dbl (229/10) ≠ 0 ∧
    ¬ (∀ w h : ℚ, w ≤ 0 ∨ h ≤ 0 → calculateBMI (some w) (some h) = 0) := by
  have hnz : -dbl (229/10) ≠ 0 := by
    rw [dbl_229_10_eq]
    norm_num
  exact ⟨calculateBMI_neg70_175, hnz,
    fun hcl => hnz (calculateBMI_neg70_175 ▸ hcl (-70) 175 (Or.inl (by norm_num)))⟩

/-- C2 (amended): `calculateBMI` returns 0 when either input is absent or
equal to zero — not for negative inputs; and, computed in binary64
arithmetic, bmi(70, 175) is the double `22.9`, bmi(0, 175) = 0 and
bmi(70, 0) = 0. -/
theorem calculateBMI_spec :
    (∀ h : Option ℚ, calculateBMI none h = 0) ∧
    (∀ w : Option ℚ, calculateBMI w none = 0) ∧
    (∀ w h : ℚ, w = 0 ∨ h = 0 → calculateBMI (some w) (some h) = 0) ∧
    calculateBMI (some 70) (some 175) = dbl (229/10) ∧
    calculateBMI (some 0) (some 175) = 0 ∧
    calculateBMI (some 70) (some 0) = 0 := by
  refine ⟨?_, ?_, ?_, calculateBMI_70_175, ?_, ?_⟩
  · intro h; cases h <;> rfl
  · intro w; cases w <;> rfl
  · intro w h hwz
    simp only [calculateBMI]
    rw [if_pos hwz]
  · simp [calculateBMI]
  · simp [calculateBMI]

/-- Witness for C2 at the zero-weight sentinel input. -/
theorem calculateBMI_spec_witness :
    calculateBMI (some 0) (some 175) = 0 :=
  calculateBMI_spec.2.2.1 0 175 (Or.inl rfl)

/-- C1 counterexample: on a device exposing neither service, the
negotiation surfaces the raw platform resolution error (not
`ServiceNotFoundError`) and the transport connection opened by `connect`
is still open — the claim's conjunction fails at this device. -/
theorem subscribeToWeight_bothFail_counterexample :
    ¬ ((subscribeToWeight ⟨false, false⟩).outcome = .error .serviceNotFound ∧
       (subscribeToWeight ⟨false, false⟩).connectionOpen = false) := by
  intro h
  have h1 := h.1
  simp [subscribeToWeight] at h1

/-- C1 (amended): on every device where both service resolutions fail, the
second resolution's platform error propagates to the caller unwrapped and
the transport connection remains open — no disconnect happens before the
error is surfaced. -/
theorem subscribeToWeight_bothFail (d : GattDevice)
    (h1 : d.hasWeightScaleService = false)
    (h2 : d.hasBodyCompositionService = false) :
    (subscribeToWeight d).outcome = .error .resolveFailed ∧
    (subscribeToWeight d).connectionOpen = true := by
  simp [subscribeToWeight, h1, h2]

/-- Witness for C1 (amended) at the device with no services. -/
theorem subscribeToWeight_bothFail_witness :
    (subscribeToWeight ⟨false, false⟩).outcome = .error .resolveFailed ∧
    (subscribeToWeight ⟨false, false⟩).connectionOpen = true :=
  subscribeToWeight_bothFail ⟨false, false⟩ rfl rfl

/-- C4: negotiation always attempts the Weight Scale service first; when
primary resolution fails and Body Composition resolution succeeds, the
session is bound to the Body Composition service with its own paired
characteristic 0x2A9C; and every successful session is one of the two
fixed service/characteristic pairs, never a mix. -/
theorem subscribeToWeight_fallback :
    (∀ d : GattDevice,
      (subscribeToWeight d).attempts.head? = some WEIGHT_SCALE_SERVICE_UUID) ∧
    (∀ d : GattDevice, d.hasWeightScaleService = false →
      d.hasBodyCompositionService = true →
      (subscribeToWeight d).outcome =
        .ok ⟨BODY_COMPOSITION_SERVICE_UUID, BODY_COMP_MEASUREMENT_CHAR_UUID⟩) ∧
    (∀ (d : GattDevice) (s : Session), (subscribeToWeight d).outcome = .ok s →
      s = ⟨WEIGHT_SCALE_SERVICE_UUID, WEIGHT_MEASUREMENT_CHAR_UUID⟩ ∨
      s = ⟨BODY_COMPOSITION_SERVICE_UUID, BODY_COMP_MEASUREMENT_CHAR_UUID⟩) := by
  refine ⟨?_, ?_, ?_⟩
  · intro d
    rcases d with ⟨a, b⟩
    cases a <;> cases b <;> rfl
  · intro d h1 h2
    simp [subscribeToWeight, h1, h2]
  · intro d s hs
    rcases d with ⟨a, b⟩
    cases a
    · cases b
      · simp [subscribeToWeight] at hs
      · simp [subscribeToWeight] at hs
        right
        rcases s with ⟨su, cu⟩
        simp_all
    · simp [subscribeToWeight] at hs
      left
      rcases s with ⟨su, cu⟩
      simp_all

/-- Witness for C4 at the fallback-only device. -/
theorem subscribeToWeight_fallback_witness :
    (subscribeToWeight ⟨false, true⟩).outcome =
      .ok ⟨BODY_COMPOSITION_SERVICE_UUID, BODY_COMP_MEASUREMENT_CHAR_UUID⟩ :=
  subscribeToWeight_fallback.2.1 ⟨false, true⟩ rfl rfl

/-- C3 counterexample: the all-zero 3-byte frame is accepted by the decoder
with weight exactly 0, so not every accepted measurement has weight
strictly greater than 0. -/
theorem parseScaleData_zero_weight_counterexample :
    parseScaleData [0, 0, 0] = some ⟨0, true, "kg"⟩ ∧
    ¬ (∀ (data : List ℕ) (m : Measurement),
        parseScaleData data = some m → 0 < m.weight) := by
  refine ⟨parse_frame_zero, fun hcl => ?_⟩
  have h1 := hcl [0, 0, 0] ⟨0, true, "kg"⟩ parse_frame_zero
  norm_num at h1

/-- C3 (amended): every measurement the decoder accepts has a non-negative
weight (the raw weight is an unsigned 16-bit value, both multiplier
doubles are non-negative, and binary64 rounding preserves sign); strict
positivity fails on raw weight 0. -/
theorem parseScaleData_weight_nonneg (data : List ℕ) (m : Measurement)
    (hm : parseScaleData data = some m) : 0 ≤ m.weight := by
  by_cases hlen : data.length < 3
  · unfold parseScaleData at hm
    rw [if_pos hlen] at hm
    exact absurd hm (by simp)
  · rw [parseScaleData_eq data hlen, Option.some.injEq] at hm
    subst hm
    dsimp only
    have hq : (0:ℚ) ≤ (if getUint8 data 0 % 2 ≠ 0 then
        fmul (getUint16LE data 1 : ℚ) (dbl (1/100))
      else fmul (getUint16LE data 1 : ℚ) (dbl (1/200))) := by
      split
      · exact fmul_nonneg (by positivity) (dbl_nonneg (by norm_num))
      · exact fmul_nonneg (by positivity) (dbl_nonneg (by norm_num))
    refine fdiv_nonneg ?_ (by norm_num)
    exact_mod_cast jsRound_nonneg (fmul_nonneg hq (by norm_num))

/-- Witness for C3 (amended) at the frame decoding to 3 kg. -/
theorem parseScaleData_weight_nonneg_witness :
    (0:ℚ) ≤ (⟨3, true, "kg"⟩ : Measurement).weight :=
  parseScaleData_weight_nonneg [0x00, 0x58, 0x02] ⟨3, true, "kg"⟩ parse_frame_600kg

/-- C5: the decoder multiplies by the double 0.005 (`dbl (1/200)`) when
the units flag bit is 0 and by the double 0.01 (`dbl (1/100)`) when it is
1, and on the two concrete frames of the claim (raw = 600) produces
exactly 3.00 kg and 6.00 lbs. -/
theorem parseScaleData_unit_flag :
    parseScaleData [0x00, 0x58, 0x02] = some ⟨3, true, "kg"⟩ ∧
    parseScaleData [0x01, 0x58, 0x02] = some ⟨6, true, "lbs"⟩ ∧
    (∀ (data : List ℕ) (m : Measurement), parseScaleData data = some m →
      getUint8 data 0 % 2 = 0 →
      m.weight = fdiv (jsRound (fmul (fmul (getUint16LE data 1 : ℚ)
        (dbl (1/200))) 100) : ℚ) 100 ∧
      m.unit = "kg") ∧
    (∀ (data : List ℕ) (m : Measurement), parseScaleData data = some m →
      getUint8 data 0 % 2 = 1 →
      m.weight = fdiv (jsRound (fmul (fmul (getUint16LE data 1 : ℚ)
        (dbl (1/100))) 100) : ℚ) 100 ∧
      m.unit = "lbs") := by
  refine ⟨parse_frame_600kg, parse_frame_600lbs, ?_, ?_⟩
  · intro data m hm hflag
    by_cases hlen : data.length < 3
    · unfold parseScaleData at hm
      rw [if_pos hlen] at hm
      exact absurd hm (by simp)
    · rw [parseScaleData_eq data hlen, Option.some.injEq] at hm
      subst hm
      constructor
      · dsimp only
        rw [if_neg (by simp [hflag])]
      · dsimp only
        rw [if_neg (by simp [hflag])]
  · intro data m hm hflag
    by_cases hlen : data.length < 3
    · unfold parseScaleData at hm
      rw [if_pos hlen] at hm
      exact absurd hm (by simp)
    · rw [parseScaleData_eq data hlen, Option.some.injEq] at hm
      subst hm
      constructor
      · dsimp only
        rw [if_pos (by simp [hflag])]
      · dsimp only
        rw [if_pos (by simp [hflag])]

/-- Witness for C5's quantified kilogram case at the 3 kg frame. -/
theorem parseScaleData_unit_flag_witness :
    (⟨3, true, "kg"⟩ : Measurement).weight =
      fdiv (jsRound (fmul (fmul (getUint16LE [0x00, 0x58, 0x02] 1 : ℚ)
        (dbl (1/200))) 100) : ℚ) 100 ∧
    (⟨3, true, "kg"⟩ : Measurement).unit = "kg" :=
  parseScaleData_unit_flag.2.2.1 [0x00, 0x58, 0x02] ⟨3, true, "kg"⟩
    parse_frame_600kg (by decide)

/-- C6 counterexample: at frame `[0x00, 0x1D, 0x00]` (raw = 29) the exact
raw-times-multiplier product is 0.145, whose round-half-away-from-zero at
the hundredths place is 0.15 — yet the program, computing in binary64,
produces the double 0.14 (5044031582654956 × 2^-55): the claimed
exact-product rounding description fails on this frame. -/
theorem parseScaleData_round_half_away_counterexample :
    parseScaleData [0x00, 0x1D, 0x00]
      = some ⟨5044031582654956 / 36028797018963968, true, "kg"⟩ ∧
    (roundHalfAwayFromZero ((29 : ℚ) * (1/200) * 100) : ℚ) / 100 = 15/100 ∧
    (5044031582654956 / 36028797018963968 : ℚ) ≠ 15/100 := by
  refine ⟨parse_frame_29, ?_, by norm_num⟩
  norm_num [roundHalfAwayFromZero]

/-- C6 (amended): for every accepted frame, the value the code rounds is
the binary64 product (raw × multiplier rounded to a double, × 100 rounded
to a double), and on that value the code's `Math.round` (half toward
positive infinity) coincides with round-half-away-from-zero at the
hundredths place because the value is never negative; the rounded integer
then passes through binary64 division by 100. Round-half-away-from-zero of
the exact real product can differ (see the counterexample at raw = 29). -/
theorem parseScaleData_round_half_away (data : List ℕ) (m : Measurement)
    (hm : parseScaleData data = some m) :
    m.weight = fdiv (roundHalfAwayFromZero
      (fmul (if getUint8 data 0 % 2 ≠ 0 then
          fmul (getUint16LE data 1 : ℚ) (dbl (1/100))
        else fmul (getUint16LE data 1 : ℚ) (dbl (1/200))) 100) : ℚ) 100 := by
  by_cases hlen : data.length < 3
  · unfold parseScaleData at hm
    rw [if_pos hlen] at hm
    exact absurd hm (by simp)
  · rw [parseScaleData_eq data hlen, Option.some.injEq] at hm
    subst hm
    dsimp only
    have hq : (0:ℚ) ≤ fmul (if getUint8 data 0 % 2 ≠ 0 then
        fmul (getUint16LE data 1 : ℚ) (dbl (1/100))
      else fmul (getUint16LE data 1 : ℚ) (dbl (1/200))) 100 := by
      refine fmul_nonneg ?_ (by norm_num)
      split
      · exact fmul_nonneg (by positivity) (dbl_nonneg (by norm_num))
      · exact fmul_nonneg (by positivity) (dbl_nonneg (by norm_num))
    rw [roundHalfAwayFromZero_eq_jsRound hq]

/-- Witness for C6 (amended) at the 3 kg frame. -/
theorem parseScaleData_round_half_away_witness :
    (⟨3, true, "kg"⟩ : Measurement).weight =
      fdiv (roundHalfAwayFromZero
        (fmul (if getUint8 [0x00, 0x58, 0x02] 0 % 2 ≠ 0 then
            fmul (getUint16LE [0x00, 0x58, 0x02] 1 : ℚ) (dbl (1/100))
          else fmul (getUint16LE [0x00, 0x58, 0x02] 1 : ℚ) (dbl (1/200))) 100) : ℚ) 100 :=
  parseScaleData_round_half_away [0x00, 0x58, 0x02] ⟨3, true, "kg"⟩ parse_frame_600kg
